import Mathlib

/-!
Shallow embedding of the `reviews` app data layer of api_yamdb
(`src/api_yamdb/reviews/models.py` and migration
`0003_auto_20240705_1915.py`), together with theorems settling the
claims about its integrity model.

Rows are Lean structures; the database is an explicit `DbState` holding
one list per table; operations (create / update / delete with the declared
Django on_delete policies, validators and constraints) are total
functions returning `Except DbError DbState` or `DbState`.
-/

namespace YaMDb

/-- Modelled from the spec: `reviews/constants.py` is not part of the
excerpt.  The spec declares the bound constants by name only ("exact
values are policy, not architecture"); its scenario in section 8 fixes
`MAX_SCORE_VALUE = 10`, and `MIN_SCORE_VALUE` is taken as 1. -/
def MIN_SCORE_VALUE : Int := 1

/-- Modelled from the spec: see `MIN_SCORE_VALUE`. -/
def MAX_SCORE_VALUE : Int := 10

/-- The closed role enumeration of `User.USER_ROLE` in
`reviews/models.py`: `user`, `admin`, `moderator`. -/
inductive Role where
  | user
  | admin
  | moderator
deriving DecidableEq, Repr

/-- A `User` row (`reviews.models.User`, extending `AbstractUser`):
username, email, bio, role, plus the superuser flag inherited from the
base account model. -/
structure User where
  id : Nat
  username : String
  email : String
  bio : String
  role : Role
  is_superuser : Bool
deriving DecidableEq, Repr

/-- The `User.is_admin` property from `reviews/models.py`:
`self.role == self.ADMIN or self.is_superuser`.  A function over the
current row, not a stored column. -/
def User.is_admin (u : User) : Bool :=
  (u.role == Role.admin) || u.is_superuser

/-- The `User.is_moderator` property from `reviews/models.py`:
`self.role == self.MODERATOR`. -/
def User.is_moderator (u : User) : Bool :=
  u.role == Role.moderator

/-- A `Category` row: name and unique slug. -/
structure Category where
  id : Nat
  name : String
  slug : String
deriving DecidableEq, Repr

/-- A `Genre` row: name and unique slug. -/
structure Genre where
  id : Nat
  name : String
  slug : String
deriving DecidableEq, Repr

/-- A `Title` row (`reviews.models.Title`): name, year
(`PositiveSmallIntegerField` with `validate_year`), description, and an
optional category foreign key (`SET_NULL`).  The many-to-many `genre`
relation lives in the `GenreTitle` table. -/
structure Title where
  id : Nat
  name : String
  year : Int
  description : String
  category : Option Nat
deriving DecidableEq, Repr

/-- A `GenreTitle` row (`reviews.models.GenreTitle`): surrogate id plus
the two `CASCADE` foreign keys.  The model declares no uniqueness
constraint on the (title, genre) pair. -/
structure GenreTitle where
  id : Nat
  title : Nat
  genre : Nat
deriving DecidableEq, Repr

/-- A `Review` row (`reviews.models.Review`): title FK (`CASCADE`),
text, author FK (`CASCADE`), score, auto-set `pub_date`. -/
structure Review where
  id : Nat
  title : Nat
  text : String
  author : Nat
  score : Int
  pub_date : Nat
deriving DecidableEq, Repr

/-- A `Comment` row (`reviews.models.Comment`): review FK (`CASCADE`),
text, author FK (`CASCADE`), auto-set `pub_date`. -/
structure Comment where
  id : Nat
  review : Nat
  text : String
  author : Nat
  pub_date : Nat
deriving DecidableEq, Repr

/-- The database state: one list of rows per table, plus the
auto-increment counters for surrogate primary keys. -/
structure DbState where
  users : List User
  categories : List Category
  genres : List Genre
  titles : List Title
  genreTitles : List GenreTitle
  reviews : List Review
  comments : List Comment
  nextReviewId : Nat
  nextCommentId : Nat
  nextGenreTitleId : Nat
deriving DecidableEq, Repr

/-- The error taxonomy of the layer: field-level validation failure,
storage-level uniqueness violation, referential (not-found) failure. -/
inductive DbError where
  | validation
  | unique
  | notFound
deriving DecidableEq, Repr

/-- Modelled from the spec: `reviews/validators.py` is not part of the
excerpt.  Per section 4.1, `validate_year(value)` "fails with
ValidationError when `value` is greater than the current calendar year.
No lower bound enforced."  Returns `true` when the value passes. -/
def validate_year (value currentYear : Int) : Bool :=
  value ≤ currentYear

/-- The value range a `PositiveSmallIntegerField` admits (0 to 32767):
the backend stores the column as a non-negative small integer, and the
model field carries the corresponding range validators. -/
def positiveSmallIntOk (v : Int) : Bool :=
  0 ≤ v && v ≤ 32767

/-- Whether a year value is accepted for `Title.year`: the field is a
`PositiveSmallIntegerField` with `validators=[validate_year]`, so both
the field-type range and the validator must pass. -/
def titleYearAccepted (value currentYear : Int) : Bool :=
  positiveSmallIntOk value && validate_year value currentYear

/-- Whether a score value is accepted for `Review.score`: the field is a
`PositiveSmallIntegerField` with `MinValueValidator(MIN_SCORE_VALUE)`
and `MaxValueValidator(MAX_SCORE_VALUE)`. -/
def scoreValid (score : Int) : Bool :=
  positiveSmallIntOk score &&
    MIN_SCORE_VALUE ≤ score && score ≤ MAX_SCORE_VALUE

/-- Creating a `Review`.  Field validation (score range) runs first and
rejects before any write; the `unique_review` constraint on
(title, author) is checked next; then the foreign keys must resolve.
`pub_date` has `auto_now_add=True`, so the caller-supplied value
`callerPubDate` is ignored and the server-side `now` is stored. -/
def createReview (s : DbState) (title author : Nat) (text : String)
    (score : Int) (callerPubDate : Option Nat) (now : Nat) :
    Except DbError DbState :=
  if scoreValid score = false then .error .validation
  else if s.reviews.any (fun r => r.title == title && r.author == author) then
    .error .unique
  else if s.titles.any (fun t => t.id == title) = false then .error .notFound
  else if s.users.any (fun u => u.id == author) = false then .error .notFound
  else .ok { s with
    reviews := s.reviews ++
      [{ id := s.nextReviewId, title := title, text := text,
         author := author, score := score, pub_date := now }],
    nextReviewId := s.nextReviewId + 1 }

/-- Updating the editable fields of a `Review` (text, score).  `pub_date` has
`auto_now_add=True` hence `editable=False`: it is never written after
creation, whatever `callerPubDate` the caller supplies. -/
def updateReview (s : DbState) (rid : Nat) (text : String) (score : Int)
    (callerPubDate : Option Nat) : Except DbError DbState :=
  if s.reviews.any (fun r => r.id == rid) = false then .error .notFound
  else if scoreValid score = false then .error .validation
  else .ok { s with
    reviews := s.reviews.map (fun r =>
      if r.id == rid then { r with text := text, score := score } else r) }

/-- Creating a `Comment`: the review and author foreign keys must
resolve; `pub_date` has `auto_now_add=True`, so `callerPubDate` is
ignored and `now` is stored. -/
def createComment (s : DbState) (review author : Nat) (text : String)
    (callerPubDate : Option Nat) (now : Nat) : Except DbError DbState :=
  if s.reviews.any (fun r => r.id == review) = false then .error .notFound
  else if s.users.any (fun u => u.id == author) = false then .error .notFound
  else .ok { s with
    comments := s.comments ++
      [{ id := s.nextCommentId, review := review, text := text,
         author := author, pub_date := now }],
    nextCommentId := s.nextCommentId + 1 }

/-- Updating the editable field of a `Comment` (text); `pub_date` is never
written after creation. -/
def updateComment (s : DbState) (cid : Nat) (text : String)
    (callerPubDate : Option Nat) : Except DbError DbState :=
  if s.comments.any (fun c => c.id == cid) = false then .error .notFound
  else .ok { s with
    comments := s.comments.map (fun c =>
      if c.id == cid then { c with text := text } else c) }

/-- Deleting a `Title`.  `Review.title` and `GenreTitle.title` are
`on_delete=CASCADE` foreign keys, and `Comment.review` cascades in turn:
the reviews of the title, the comments on those reviews, and the
genre links of the title are all removed in the same operation. -/
def deleteTitle (s : DbState) (tid : Nat) : DbState :=
  let deletedReviewIds :=
    (s.reviews.filter (fun r => r.title == tid)).map (fun r => r.id)
  { s with
    titles := s.titles.filter (fun t => !(t.id == tid)),
    reviews := s.reviews.filter (fun r => !(r.title == tid)),
    comments := s.comments.filter (fun c => !(deletedReviewIds.contains c.review)),
    genreTitles := s.genreTitles.filter (fun gt => !(gt.title == tid)) }

/-- Deleting a `Category`.  `Title.category` is declared with
`on_delete=SET_NULL, null=True`: referencing titles survive with the
category reference cleared; nothing else is touched. -/
def deleteCategory (s : DbState) (cid : Nat) : DbState :=
  { s with
    categories := s.categories.filter (fun c => !(c.id == cid)),
    titles := s.titles.map (fun t =>
      if t.category == some cid then { t with category := none } else t) }

/-- Deleting a `Genre`.  `GenreTitle.genre` is `on_delete=CASCADE`: the
association rows of the genre are removed with it. -/
def deleteGenre (s : DbState) (gid : Nat) : DbState :=
  { s with
    genres := s.genres.filter (fun g => !(g.id == gid)),
    genreTitles := s.genreTitles.filter (fun gt => !(gt.genre == gid)) }

/-- Creating a `GenreTitle` link.  The model declares the two foreign
keys and nothing else: there is no uniqueness constraint on the
(title, genre) pair, so the insert succeeds whenever both keys resolve,
duplicates included. -/
def createGenreTitle (s : DbState) (title genre : Nat) :
    Except DbError DbState :=
  if s.titles.any (fun t => t.id == title) = false then .error .notFound
  else if s.genres.any (fun g => g.id == genre) = false then .error .notFound
  else .ok { s with
    genreTitles := s.genreTitles ++
      [{ id := s.nextGenreTitleId, title := title, genre := genre }],
    nextGenreTitleId := s.nextGenreTitleId + 1 }

/-- The columns of the `Title` table as declared in `reviews/models.py`
after migration 0003: surrogate id, name, year, description and the
category foreign key.  The many-to-many `genre` lives in its own table,
and there is no `rating` column. -/
def titleColumns : List String :=
  ["id", "name", "year", "description", "category"]

/-- The RemoveField operation (model title, field rating) of
migration `0003_auto_20240705_1915`: it drops the `rating` column from
the column list of the title table. -/
def migration0003RemoveRating (cols : List String) : List String :=
  cols.filter (fun c => !(c == "rating"))

/-- The input of any rating aggregate for a title: the multiset of
`Review.score` values currently attached to it.  Nothing is read from
the `Title` row itself. -/
def ratingScores (s : DbState) (tid : Nat) : List Int :=
  (s.reviews.filter (fun r => r.title == tid)).map (fun r => r.score)

/-- Ordering relation behind the username entry of `User.Meta.ordering`. -/
def usernameLe (a b : User) : Prop :=
  a.username ≤ b.username

instance : DecidableRel usernameLe := fun a b =>
  inferInstanceAs (Decidable (a.username ≤ b.username))

instance : IsTotal User usernameLe :=
  ⟨fun a b => le_total a.username b.username⟩

instance : IsTrans User usernameLe :=
  ⟨fun _ _ _ hab hbc => le_trans hab hbc⟩

/-- Listing users: `User.Meta.ordering` names username, making every
unordered query return the rows sorted by username ascending. -/
def listUsers (s : DbState) : List User :=
  List.insertionSort usernameLe s.users

/-- The `unique_review` constraint of `Review.Meta.constraints`
(a UniqueConstraint over the title and author fields), as a state
invariant:
two review rows agreeing on title and author are the same row. -/
def unique_review (s : DbState) : Prop :=
  ∀ r₁ ∈ s.reviews, ∀ r₂ ∈ s.reviews,
    r₁.title = r₂.title → r₁.author = r₂.author → r₁ = r₂

/-- Referential integrity for comments: the review foreign key of every
comment resolves to an existing review row. -/
def commentsResolve (s : DbState) : Prop :=
  ∀ c ∈ s.comments, ∃ r ∈ s.reviews, r.id = c.review

/-- A small populated database used to instantiate the theorems: two
users, one category, one genre, two titles (the first categorised and
linked to the genre), one review per title by user 1, and one comment
per review. -/
def baseState : DbState where
  users := [⟨1, "alice", "alice@x.com", "", Role.user, false⟩,
            ⟨2, "bob", "bob@x.com", "", Role.user, false⟩]
  categories := [⟨1, "Films", "films"⟩]
  genres := [⟨1, "Drama", "drama"⟩]
  titles := [⟨1, "T1", 2000, "d1", some 1⟩, ⟨2, "T2", 2001, "d2", none⟩]
  genreTitles := [⟨1, 1, 1⟩]
  reviews := [⟨1, 1, "good", 1, 8, 5⟩, ⟨2, 2, "ok", 1, 6, 6⟩]
  comments := [⟨1, 1, "c1", 1, 7⟩, ⟨2, 2, "c2", 1, 8⟩]
  nextReviewId := 3
  nextCommentId := 3
  nextGenreTitleId := 2

/-- State after user 2 successfully reviews title 1 at time 9. -/
def c1State : DbState :=
  { baseState with
    reviews := baseState.reviews ++ [⟨3, 1, "x", 2, 7, 9⟩],
    nextReviewId := 4 }

/-- State after review 1 of `baseState` is edited (text and score changed);
its `pub_date` stays 5. -/
def u9State : DbState :=
  { baseState with
    reviews := [⟨1, 1, "edited", 1, 9, 5⟩, ⟨2, 2, "ok", 1, 6, 6⟩] }

/-- Claim C7: `is_admin u` holds exactly when `u.role` is admin or `u`
carries the superuser flag, and `is_moderator u` exactly when `u.role`
is moderator; both depend only on the current role and flag — users
agreeing there get the same answers, so nothing is cached per row. -/
theorem C7_authorization_predicates :
    ∀ u : User,
      (User.is_admin u = true ↔ (u.role = Role.admin ∨ u.is_superuser = true)) ∧
      (User.is_moderator u = true ↔ u.role = Role.moderator) ∧
      (∀ v : User, u.role = v.role → u.is_superuser = v.is_superuser →
        User.is_admin u = User.is_admin v) ∧
      (∀ v : User, u.role = v.role →
        User.is_moderator u = User.is_moderator v) := by
  intro u
  refine ⟨?_, ?_, ?_, ?_⟩
  · simp [User.is_admin]
  · simp [User.is_moderator]
  · intro v h₁ h₂
    simp [User.is_admin, h₁, h₂]
  · intro v h₁
    simp [User.is_moderator, h₁]

/-- Witness for C7 at concrete users: an admin-role user satisfies
`is_admin`, and two users agreeing on role and flag agree on it. -/
theorem C7_authorization_predicates_witness :
    User.is_admin ⟨1, "a", "a@x.com", "", Role.admin, false⟩ = true ∧
    User.is_admin ⟨1, "a", "a@x.com", "", Role.admin, false⟩ =
      User.is_admin ⟨2, "b", "b@x.com", "bio", Role.admin, false⟩ :=
  ⟨(C7_authorization_predicates _).1.mpr (Or.inl rfl),
   (C7_authorization_predicates _).2.2.1 _ rfl rfl⟩

/-- Claim C10: listing users with no explicit ordering returns the user
rows sorted by username ascending (`User.Meta.ordering`), as a
permutation of the stored rows. -/
theorem C10_users_ordered_by_username :
    ∀ s : DbState,
      (listUsers s).Perm s.users ∧ List.Sorted usernameLe (listUsers s) := by
  intro s
  exact ⟨List.perm_insertionSort usernameLe s.users,
         List.sorted_insertionSort usernameLe s.users⟩

/-- Witness for C10 at the concrete populated state. -/
theorem C10_users_ordered_by_username_witness :
    (listUsers baseState).Perm baseState.users ∧
      List.Sorted usernameLe (listUsers baseState) :=
  C10_users_ordered_by_username baseState

/-- Claim C6: the title table has no `rating` column, the operation of
migration 0003 removes `rating` from any column list it is applied to, and
the input of a rating aggregate is determined by the review table alone:
states with the same reviews yield the same score multiset for every
title. -/
theorem C6_rating_is_query_time :
    ("rating" ∉ titleColumns) ∧
    (∀ cols : List String, "rating" ∉ migration0003RemoveRating cols) ∧
    (∀ s₁ s₂ : DbState, ∀ tid : Nat, s₁.reviews = s₂.reviews →
      ratingScores s₁ tid = ratingScores s₂ tid) := by
  refine ⟨by decide, ?_, ?_⟩
  · intro cols h
    simp [migration0003RemoveRating, List.mem_filter] at h
  · intro s₁ s₂ tid h
    simp [ratingScores, h]

/-- Witness for C6: two states differing in every table except reviews
give the same rating input for title 1. -/
theorem C6_rating_is_query_time_witness :
    ratingScores { baseState with titles := [], users := [] } 1 =
      ratingScores baseState 1 :=
  C6_rating_is_query_time.2.2 _ _ 1 rfl

/-- Counterexample to claim C3: the year -1 does not exceed the current
calendar year, yet it is not accepted for `Title.year` — the
`PositiveSmallIntegerField` declaring the column enforces a lower bound
of 0. -/
theorem C3_counterexample :
    titleYearAccepted (-1) 2024 = false ∧ ((-1 : Int) ≤ 2024) := by
  decide

/-- Claim C3 as amended: `validate_year` itself fails exactly when the
value exceeds the current year and imposes no lower bound, but
`Title.year` is a `PositiveSmallIntegerField`, so a year is accepted
exactly when it lies in the field range [0, 32767] and does not exceed
the current year. -/
theorem C3_amended_year_validation :
    ∀ value currentYear : Int,
      (validate_year value currentYear = false ↔ currentYear < value) ∧
      (titleYearAccepted value currentYear = true ↔
        (0 ≤ value ∧ value ≤ 32767 ∧ value ≤ currentYear)) := by
  intro v cy
  constructor
  · simp [validate_year, not_le]
  · simp [titleYearAccepted, positiveSmallIntOk, validate_year, and_assoc]

/-- Witness for the amended C3: the in-range year 2000 is accepted
against current year 2024. -/
theorem C3_amended_year_validation_witness :
    titleYearAccepted 2000 2024 = true :=
  (C3_amended_year_validation 2000 2024).2.mpr
    ⟨by decide, by decide, by decide⟩

/-- Claim C1: a second creation attempt for an existing (title, author)
pair fails with the uniqueness error and nothing is written, and a
successful creation preserves the `unique_review` invariant. -/
theorem C1_unique_review_constraint :
    ∀ (s : DbState) (t a : Nat) (txt : String) (sc : Int)
      (cpd : Option Nat) (now : Nat),
      ((∃ r ∈ s.reviews, r.title = t ∧ r.author = a) →
        scoreValid sc = true →
        createReview s t a txt sc cpd now = Except.error DbError.unique) ∧
      (unique_review s →
        ∀ s', createReview s t a txt sc cpd now = Except.ok s' →
          unique_review s') := by
  intro s t a txt sc cpd now
  constructor
  · rintro ⟨r, hr, ht, ha⟩ hsc
    have hany : s.reviews.any (fun r => r.title == t && r.author == a) = true := by
      rw [List.any_eq_true]
      exact ⟨r, hr, by simp [ht, ha]⟩
    simp [createReview, hsc, hany]
  · intro hu s' hok
    unfold createReview at hok
    split_ifs at hok with h₁ h₂ h₃ h₄ <;> try simp at hok
    have hno : ∀ r ∈ s.reviews, ¬(r.title = t ∧ r.author = a) := by
      intro r hr hpair
      exact h₂ (List.any_eq_true.mpr ⟨r, hr, by simp [hpair.1, hpair.2]⟩)
    subst hok
    intro r₁ hr₁ r₂ hr₂ hT hA
    simp only [List.mem_append, List.mem_singleton] at hr₁ hr₂
    rcases hr₁ with hr₁ | hr₁ <;> rcases hr₂ with hr₂ | hr₂
    · exact hu r₁ hr₁ r₂ hr₂ hT hA
    · exact absurd ⟨by simpa [hr₂] using hT, by simpa [hr₂] using hA⟩
        (hno r₁ hr₁)
    · exact absurd ⟨by simpa [hr₁] using hT.symm, by simpa [hr₁] using hA.symm⟩
        (hno r₂ hr₂)
    · rw [hr₁, hr₂]

/-- Witness for C1: in `baseState`, user 1 already reviewed title 1, so
a second attempt fails with the uniqueness error; and the state after
the successful review by user 2 still satisfies `unique_review`. -/
theorem C1_unique_review_constraint_witness :
    createReview baseState 1 1 "again" 5 none 9 =
      Except.error DbError.unique ∧
    unique_review c1State :=
  ⟨(C1_unique_review_constraint baseState 1 1 "again" 5 none 9).1
      (by decide) (by decide),
   (C1_unique_review_constraint baseState 1 2 "x" 7 none 9).2
      (by unfold unique_review; decide) c1State (by rfl)⟩

/-- Claim C2: a score outside [MIN_SCORE_VALUE, MAX_SCORE_VALUE] makes
review creation fail with the validation error before any write, and a
successful creation keeps every stored score inside the range. -/
theorem C2_score_validation :
    ∀ (s : DbState) (t a : Nat) (txt : String) (sc : Int)
      (cpd : Option Nat) (now : Nat),
      ((sc < MIN_SCORE_VALUE ∨ MAX_SCORE_VALUE < sc) →
        createReview s t a txt sc cpd now = Except.error DbError.validation) ∧
      ((∀ r ∈ s.reviews, MIN_SCORE_VALUE ≤ r.score ∧ r.score ≤ MAX_SCORE_VALUE) →
        ∀ s', createReview s t a txt sc cpd now = Except.ok s' →
          ∀ r ∈ s'.reviews,
            MIN_SCORE_VALUE ≤ r.score ∧ r.score ≤ MAX_SCORE_VALUE) := by
  intro s t a txt sc cpd now
  constructor
  · intro h
    have hsv : scoreValid sc = false := by
      rcases Bool.eq_false_or_eq_true (scoreValid sc) with ht | hf
      · exfalso
        simp [scoreValid, positiveSmallIntOk, MIN_SCORE_VALUE,
              MAX_SCORE_VALUE] at ht
        rcases h with h | h
        · simp [MIN_SCORE_VALUE] at h
          omega
        · simp [MAX_SCORE_VALUE] at h
          omega
      · exact hf
    simp [createReview, hsv]
  · intro hall s' hok
    unfold createReview at hok
    split_ifs at hok with h₁ h₂ h₃ h₄ <;> try simp at hok
    have hsc : MIN_SCORE_VALUE ≤ sc ∧ sc ≤ MAX_SCORE_VALUE := by
      have ht : scoreValid sc = true := by simpa using h₁
      simp [scoreValid, positiveSmallIntOk] at ht
      exact ⟨ht.1.2, ht.2⟩
    subst hok
    intro r hr
    simp only [List.mem_append, List.mem_singleton] at hr
    rcases hr with hr | hr
    · exact hall r hr
    · rw [hr]
      exact hsc

/-- Witness for C2: score 11 is rejected with a validation error when
MAX_SCORE_VALUE is 10, and every review stored after the
successful creation by user 2 has its score in range. -/
theorem C2_score_validation_witness :
    createReview baseState 1 1 "bad" 11 none 9 =
      Except.error DbError.validation ∧
    (∀ r ∈ c1State.reviews,
      MIN_SCORE_VALUE ≤ r.score ∧ r.score ≤ MAX_SCORE_VALUE) :=
  ⟨(C2_score_validation baseState 1 1 "bad" 11 none 9).1
      (Or.inr (by decide)),
   (C2_score_validation baseState 1 2 "x" 7 none 9).2
      (by decide) c1State (by rfl)⟩

/-- Claim C4: deleting a title removes the title, every review on it
and, transitively, every comment on those reviews; no surviving comment
references a review of the deleted title, and referential integrity of
the comment table is preserved. -/
theorem C4_delete_title_cascade :
    ∀ (s : DbState) (tid : Nat),
      (∀ t ∈ (deleteTitle s tid).titles, t.id ≠ tid) ∧
      (∀ r ∈ (deleteTitle s tid).reviews, r.title ≠ tid) ∧
      (∀ c ∈ (deleteTitle s tid).comments, ∀ r ∈ s.reviews,
        r.title = tid → c.review ≠ r.id) ∧
      (commentsResolve s → commentsResolve (deleteTitle s tid)) := by
  intro s tid
  refine ⟨?_, ?_, ?_, ?_⟩
  · intro t ht
    simp [deleteTitle, List.mem_filter] at ht
    exact ht.2
  · intro r hr
    simp [deleteTitle, List.mem_filter] at hr
    exact hr.2
  · intro c hc r hr htid heq
    simp [deleteTitle, List.mem_filter] at hc
    exact hc.2 r hr htid heq.symm
  · intro h c hc
    simp [deleteTitle, List.mem_filter] at hc
    obtain ⟨r, hr, hid⟩ := h c hc.1
    have hrt : r.title ≠ tid := fun htid => hc.2 r hr htid hid
    exact ⟨r, by simp [deleteTitle, List.mem_filter, hr, hrt], hid⟩

/-- Witness for C4: after deleting title 1 from `baseState`, every
remaining comment still resolves to an existing review. -/
theorem C4_delete_title_cascade_witness :
    commentsResolve (deleteTitle baseState 1) :=
  (C4_delete_title_cascade baseState 1).2.2.2
    (by unfold commentsResolve; decide)

/-- Claim C5: deleting a category keeps every title row (same count),
clears the category reference of the titles that pointed at it, and
leaves their name, year, description and genre links unchanged. -/
theorem C5_delete_category_set_null :
    ∀ (s : DbState) (cid : Nat),
      ((deleteCategory s cid).titles.length = s.titles.length) ∧
      ((deleteCategory s cid).genreTitles = s.genreTitles) ∧
      ((deleteCategory s cid).reviews = s.reviews) ∧
      ((deleteCategory s cid).comments = s.comments) ∧
      (∀ t ∈ s.titles, t.category = some cid →
        ∃ t' ∈ (deleteCategory s cid).titles,
          t'.id = t.id ∧ t'.category = none ∧ t'.name = t.name ∧
          t'.year = t.year ∧ t'.description = t.description) := by
  intro s cid
  refine ⟨by simp [deleteCategory], rfl, rfl, rfl, ?_⟩
  intro t ht hcat
  refine ⟨{ t with category := none }, ?_, rfl, rfl, rfl, rfl, rfl⟩
  have hm := List.mem_map_of_mem
    (f := fun t : Title =>
      if t.category == some cid then { t with category := none } else t) ht
  simpa [deleteCategory, hcat] using hm

/-- Witness for C5: deleting category 1 from `baseState` keeps title 1
with its category cleared and all other fields intact. -/
theorem C5_delete_category_set_null_witness :
    ∃ t' ∈ (deleteCategory baseState 1).titles,
      t'.id = 1 ∧ t'.category = none ∧ t'.name = "T1" ∧
      t'.year = 2000 ∧ t'.description = "d1" :=
  (C5_delete_category_set_null baseState 1).2.2.2.2
    ⟨1, "T1", 2000, "d1", some 1⟩ (by decide) rfl

/-- Counterexample to claim C8: `GenreTitle` declares no uniqueness on
the (title, genre) pair, so inserting the pair (1, 1) into `baseState`,
which already links title 1 to genre 1, succeeds and leaves two distinct
rows (ids 1 and 2) with the same pair. -/
theorem C8_counterexample :
    createGenreTitle baseState 1 1 =
      Except.ok { baseState with
        genreTitles := [⟨1, 1, 1⟩, ⟨2, 1, 1⟩],
        nextGenreTitleId := 3 } := by
  rfl

/-- Claim C8 as amended: a `GenreTitle` row is cascade-deleted exactly
when its title or its genre is deleted — links of the deleted side
disappear and all other links survive — but no uniqueness constraint
exists on the (title, genre) pair, so duplicate pairs can coexist. -/
theorem C8_amended_cascades :
    ∀ (s : DbState) (tid gid : Nat),
      (∀ gt ∈ (deleteTitle s tid).genreTitles, gt.title ≠ tid) ∧
      (∀ gt ∈ (deleteGenre s gid).genreTitles, gt.genre ≠ gid) ∧
      (∀ gt ∈ s.genreTitles, gt.title ≠ tid →
        gt ∈ (deleteTitle s tid).genreTitles) ∧
      (∀ gt ∈ s.genreTitles, gt.genre ≠ gid →
        gt ∈ (deleteGenre s gid).genreTitles) := by
  intro s tid gid
  refine ⟨?_, ?_, ?_, ?_⟩
  · intro gt hgt
    simp [deleteTitle, List.mem_filter] at hgt
    exact hgt.2
  · intro gt hgt
    simp [deleteGenre, List.mem_filter] at hgt
    exact hgt.2
  · intro gt hgt h
    simp [deleteTitle, List.mem_filter, hgt, h]
  · intro gt hgt h
    simp [deleteGenre, List.mem_filter, hgt, h]

/-- Witness for the amended C8: deleting title 2 keeps the link
between title 1 and genre 1. -/
theorem C8_amended_cascades_witness :
    (⟨1, 1, 1⟩ : GenreTitle) ∈ (deleteTitle baseState 2).genreTitles :=
  (C8_amended_cascades baseState 2 2).2.2.1 ⟨1, 1, 1⟩ (by decide) (by decide)

/-- Claim C9: `pub_date` is server-assigned exactly once.  A
caller-supplied value changes nothing at creation (the result is
identical for any two supplied values), a created row carries the
server time, and updates preserve the stored `pub_date` of every row,
for reviews and comments alike. -/
theorem C9_pub_date_immutable :
    ∀ (s : DbState) (t a : Nat) (txt : String) (sc : Int)
      (cpd cpd' : Option Nat) (now : Nat),
      (createReview s t a txt sc cpd now =
        createReview s t a txt sc cpd' now) ∧
      (∀ s', createReview s t a txt sc cpd now = Except.ok s' →
        ∀ r ∈ s'.reviews, r ∈ s.reviews ∨ r.pub_date = now) ∧
      (∀ rid ntxt nsc s', updateReview s rid ntxt nsc cpd = Except.ok s' →
        ∀ r' ∈ s'.reviews, ∃ r ∈ s.reviews,
          r'.id = r.id ∧ r'.pub_date = r.pub_date) ∧
      (createComment s t a txt cpd now = createComment s t a txt cpd' now) ∧
      (∀ s', createComment s t a txt cpd now = Except.ok s' →
        ∀ c ∈ s'.comments, c ∈ s.comments ∨ c.pub_date = now) ∧
      (∀ cid ntxt s', updateComment s cid ntxt cpd = Except.ok s' →
        ∀ c' ∈ s'.comments, ∃ c ∈ s.comments,
          c'.id = c.id ∧ c'.pub_date = c.pub_date) := by
  intro s t a txt sc cpd cpd' now
  refine ⟨rfl, ?_, ?_, rfl, ?_, ?_⟩
  · intro s' hok
    unfold createReview at hok
    split_ifs at hok <;> try simp at hok
    subst hok
    intro r hr
    simp only [List.mem_append, List.mem_singleton] at hr
    rcases hr with hr | hr
    · exact Or.inl hr
    · exact Or.inr (by rw [hr])
  · intro rid ntxt nsc s' hok
    unfold updateReview at hok
    split_ifs at hok <;> try simp at hok
    subst hok
    intro r' hr'
    simp only [List.mem_map] at hr'
    obtain ⟨r, hr, hf⟩ := hr'
    refine ⟨r, hr, ?_⟩
    rw [← hf]
    split <;> exact ⟨rfl, rfl⟩
  · intro s' hok
    unfold createComment at hok
    split_ifs at hok <;> try simp at hok
    subst hok
    intro c hc
    simp only [List.mem_append, List.mem_singleton] at hc
    rcases hc with hc | hc
    · exact Or.inl hc
    · exact Or.inr (by rw [hc])
  · intro cid ntxt s' hok
    unfold updateComment at hok
    split_ifs at hok <;> try simp at hok
    subst hok
    intro c' hc'
    simp only [List.mem_map] at hc'
    obtain ⟨c, hc, hf⟩ := hc'
    refine ⟨c, hc, ?_⟩
    rw [← hf]
    split <;> exact ⟨rfl, rfl⟩

/-- Witness for C9: creating a review with the caller-supplied
timestamp 123 stores the server time 9 instead. -/
theorem C9_pub_date_immutable_witness :
    (⟨3, 1, "x", 2, 7, 9⟩ : Review) ∈ baseState.reviews ∨
      (⟨3, 1, "x", 2, 7, 9⟩ : Review).pub_date = 9 :=
  (C9_pub_date_immutable baseState 1 2 "x" 7 (some 123) none 9).2.1
    c1State (by rfl) ⟨3, 1, "x", 2, 7, 9⟩ (by decide)

end YaMDb
